import Mathlib

set_option maxRecDepth 10000

/-!
# Verification of the fake TDS quiz server (`fake_server.py`)

Shallow embedding of the repository's single source file.  The server has two
responsibilities:

* an answer grader, `POST /fake-submit` (`fake_submit`, lines 157-202): JSON
  body parsing, presence validation of `email`/`secret`/`url`, string-suffix
  stage dispatch, float parsing of the answer and an absolute-tolerance
  comparison against a fixed expected value;
* four demo page generators that embed base64-encoded JSON instruction
  payloads (`wrap_atob`, lines 34-36, and the four `GET` handlers).

Modelling conventions:

* JSON scalar values reaching the grader are modelled by `JVal`
  (null / bool / number / string); arrays and objects never appear in the
  claims under scrutiny and are omitted.
* Python floats are modelled as exact rationals (`ℚ`); `float(answer)` on a
  string is modelled by `pyFloat`, a parser of optionally signed decimal
  literals with optional fraction and exponent (Python's `inf`/`nan` spellings
  and underscore separators are not modelled — no claim depends on them).
  `float(True) = 1.0`, `float(False) = 0.0` as in Python.
* `str.encode("utf-8")` is modelled as the byte sequence of the code points
  (`strToBytes`); all payload strings produced by this server are ASCII, for
  which this coincides with UTF-8.
* `base64.b64encode`/`b64decode` are implemented over byte lists
  (`b64EncodeChunks`, `b64DecodeChunks`) and proved to round-trip.
* `gzip.compress`/`gzip.decompress` are not re-implemented; theorems about the
  puzzle payload quantify over an arbitrary compress/decompress pair that
  round-trips on the payload in question (true of the gzip library).
* An unhandled Python exception (an `AttributeError` from calling `.endswith`
  on a non-string) is modelled by the `SubmitResult.exn` constructor; the
  framework surfaces it as a 500-class server error.
-/

namespace FakeTDS

/-- JSON scalar values as received by the grader after `req.json()`. -/
inductive JVal where
  | jnull
  | jbool (b : Bool)
  | jnum (q : ℚ)
  | jstr (s : String)
deriving DecidableEq

/-- Python truthiness (`not x` in `fake_server.py` line 169 negates this):
`None`, `False`, `0` and `""` are falsy, everything else modelled is truthy. -/
def pyTruthy : JVal → Bool
  | .jnull => false
  | .jbool b => b
  | .jnum q => decide (q ≠ 0)
  | .jstr s => decide (s ≠ "")

/-- Whitespace stripped by Python's `float(str)` conversion. -/
def pyIsSpace (c : Char) : Bool :=
  c = ' ' || c = '\t' || c = '\n' || c = '\x0d' || c = '\x0b' || c = '\x0c'

/-- Strip leading and trailing whitespace, as `float(str)` does. -/
def pyStrip (l : List Char) : List Char :=
  ((l.dropWhile pyIsSpace).reverse.dropWhile pyIsSpace).reverse

def isDigitCh (c : Char) : Bool := decide ('0' ≤ c) && decide (c ≤ '9')

/-- Value of a big-endian list of decimal digit characters. -/
def digitsVal (l : List Char) : ℕ :=
  l.foldl (fun a c => 10 * a + (c.toNat - 48)) 0

/-- Leading `+`/`-` sign of a float literal or exponent. -/
def readSign : List Char → ℤ × List Char
  | '+' :: t => (1, t)
  | '-' :: t => (-1, t)
  | t => (1, t)

/-- The exact rational value of a decimal literal with sign `sgn`, integer
digits `ip`, fraction digits `fp` and decimal exponent `ex`:
`sgn * (ip.fp) * 10 ^ ex`, assembled with a single `mkRat` so that the value
is computable by reduction. -/
def floatVal (sgn : ℤ) (ip fp : List Char) (ex : ℤ) : ℚ :=
  let m : ℤ := sgn * (digitsVal (ip ++ fp) : ℤ)
  let e : ℤ := ex - fp.length
  if 0 ≤ e then mkRat (m * 10 ^ e.toNat) 1 else mkRat m (10 ^ (-e).toNat)

/-- Exponent suffix of a float literal: sign, at least one digit, nothing after. -/
def pyExp (t : List Char) : Option ℤ :=
  let p := readSign t
  let ed := p.2.takeWhile isDigitCh
  let r := p.2.dropWhile isDigitCh
  if ed.isEmpty || !r.isEmpty then none
  else some (p.1 * (digitsVal ed : ℤ))

/-- Model of Python's `float(s)` on decimal literals: optional sign, digits
with optional fraction, optional exponent, surrounding whitespace allowed.
Returns `none` exactly when Python raises `ValueError` (on such literals). -/
def pyFloat (s : String) : Option ℚ :=
  let l := pyStrip s.data
  let p := readSign l
  let ip := p.2.takeWhile isDigitCh
  let r1 := p.2.dropWhile isDigitCh
  let fr : List Char × List Char :=
    match r1 with
    | '.' :: t => (t.takeWhile isDigitCh, t.dropWhile isDigitCh)
    | _ => ([], r1)
  if ip.isEmpty && fr.1.isEmpty then none
  else
    match fr.2 with
    | [] => some (floatVal p.1 ip fr.1 0)
    | 'e' :: t => (pyExp t).map (floatVal p.1 ip fr.1)
    | 'E' :: t => (pyExp t).map (floatVal p.1 ip fr.1)
    | _ => none

/-- Lines 193-197: `ans_num = float(answer) if answer is not None else None`
inside `try/except`.  `None` gives `None`; numbers convert; booleans convert
(`float(True) = 1.0`); strings parse or fail to `None`. -/
def parseAnswer : JVal → Option ℚ
  | .jnull => none
  | .jbool b => some (if b then 1 else 0)
  | .jnum q => some q
  | .jstr s => pyFloat s

/-- The four quiz stages, in the linear chain order pdf → image → audio → puzzle. -/
inductive Stage where
  | pdf
  | image
  | audio
  | puzzle
deriving DecidableEq

/-- Line 17: `PDF_SUM_ANSWER = 10 + 20 + 30`. -/
def PDF_SUM_ANSWER : ℚ := 10 + 20 + 30

/-- Line 20: `IMAGE_OCR_ANSWER = 777`. -/
def IMAGE_OCR_ANSWER : ℚ := 777

/-- Line 23: `AUDIO_ANSWER = 3 + 4 + 5`. -/
def AUDIO_ANSWER : ℚ := 3 + 4 + 5

/-- Line 26: `PUZZLE_ANSWER = 42`. -/
def PUZZLE_ANSWER : ℚ := 42

/-- The `expected = ...` assignment in each dispatch branch (lines 177-188). -/
def expectedOf : Stage → ℚ
  | .pdf => PDF_SUM_ANSWER
  | .image => IMAGE_OCR_ANSWER
  | .audio => AUDIO_ANSWER
  | .puzzle => PUZZLE_ANSWER

/-- The `next_url = ...` assignment in each dispatch branch (lines 177-188):
the successor page path, `None` for the terminal puzzle stage. -/
def next_urlOf : Stage → Option String
  | .pdf => some "/image-demo"
  | .image => some "/audio-demo"
  | .audio => some "/puzzle-demo"
  | .puzzle => none

/-- Python's `s.endswith(p)`. -/
def pyEndswith (s p : String) : Bool := p.data.isSuffixOf s.data

/-- The `url.endswith(...)` if/elif chain of lines 177-189, in source order. -/
def stageOf (url : String) : Option Stage :=
  if pyEndswith url "/pdf-demo" then some .pdf
  else if pyEndswith url "/image-demo" then some .image
  else if pyEndswith url "/audio-demo" then some .audio
  else if pyEndswith url "/puzzle-demo" then some .puzzle
  else none

/-- Ordered stage table as the spec words it ("a small ordered lookup table
... keep the linear first-match priority order"): stage tag and page path. -/
def stagePathTable : List (Stage × String) :=
  [(.pdf, "/pdf-demo"), (.image, "/image-demo"),
   (.audio, "/audio-demo"), (.puzzle, "/puzzle-demo")]

/-- Spec-side restatement of the dispatch for the refinement part of C2:
first match over the ordered table wins. -/
def firstMatchStage (url : String) : Option Stage :=
  (stagePathTable.find? (fun p => pyEndswith url p.2)).map (fun p => p.1)

/-- The `url` member of a grader response: the key may be absent (the
"missing fields" response carries no `url` key), JSON `null`, or a link. -/
inductive UrlField where
  | absent
  | null
  | link (s : String)
deriving DecidableEq

/-- A grader response body `{"correct": ..., "reason": ..., "url": ...}`. -/
structure Verdict where
  correct : Bool
  reason : String
  url : UrlField
deriving DecidableEq

/-- Observable outcome of one `POST /fake-submit` request: an
`HTTPException` (line 162), a `JSONResponse` with a status code, or an
unhandled Python exception (surfaced by the framework as a 500 error). -/
inductive SubmitResult where
  | httpError (status : ℕ) (detail : String)
  | response (status : ℕ) (v : Verdict)
  | exn (msg : String)
deriving DecidableEq

/-- Line 200/202: `f"http://localhost:8001{next_url}" if next_url else None`. -/
def fullNext : Option String → UrlField
  | some p => .link ("http://localhost:8001" ++ p)
  | none => .null

/-- Lines 193-202: parse the answer and compare with absolute tolerance
`1e-6`; a parse failure falls into the same `else` branch as a wrong value. -/
def gradeStage (st : Stage) (answer : JVal) : SubmitResult :=
  match parseAnswer answer with
  | some a =>
    if |a - expectedOf st| < 1 / 1000000 then
      .response 200 ⟨true, "", fullNext (next_urlOf st)⟩
    else
      .response 200 ⟨false, "Wrong answer", fullNext (next_urlOf st)⟩
  | none => .response 200 ⟨false, "Wrong answer", fullNext (next_urlOf st)⟩

/-- Lines 177-202: dispatch on the url suffix; unknown pages get the
`{"correct": False, "reason": "unknown url", "url": None}` response. -/
def gradeUrl (url : String) (answer : JVal) : SubmitResult :=
  match stageOf url with
  | none => .response 200 ⟨false, "unknown url", .null⟩
  | some st => gradeStage st answer

/-- A request body for `POST /fake-submit`: either text that fails JSON
parsing, or a parsed JSON object from which the four fields are extracted
with `data.get(...)` (absent keys and JSON `null` both become `jnull`). -/
inductive ReqBody where
  | badJson
  | okJson (email secret url answer : JVal)

/-- The whole `fake_submit` handler, lines 157-202.  A malformed body raises
`HTTPException(400)`.  A falsy `email`, `secret` or `url` short-circuits to
the "missing fields" verdict (status 200, no `url` key).  A truthy non-string
`url` makes `url.endswith` raise an unhandled `AttributeError`. -/
def fake_submit : ReqBody → SubmitResult
  | .badJson => .httpError 400 "invalid json"
  | .okJson email secret url answer =>
    if !pyTruthy email || !pyTruthy secret || !pyTruthy url then
      .response 200 ⟨false, "missing fields", .absent⟩
    else
      match url with
      | .jstr u => gradeUrl u answer
      | _ => .exn "AttributeError"

/-- The `url` member of a response body, if the result is a response. -/
def respUrl : SubmitResult → Option UrlField
  | .response _ v => some v.url
  | _ => none

/-- The `correct` member of a response body, if the result is a response. -/
def respCorrect : SubmitResult → Option Bool
  | .response _ v => some v.correct
  | _ => none

/-- The standard base64 alphabet used by `base64.b64encode`. -/
def B64ALPH : List Char :=
  ['A', 'B', 'C', 'D', 'E', 'F', 'G', 'H', 'I', 'J', 'K', 'L', 'M',
   'N', 'O', 'P', 'Q', 'R', 'S', 'T', 'U', 'V', 'W', 'X', 'Y', 'Z',
   'a', 'b', 'c', 'd', 'e', 'f', 'g', 'h', 'i', 'j', 'k', 'l', 'm',
   'n', 'o', 'p', 'q', 'r', 's', 't', 'u', 'v', 'w', 'x', 'y', 'z',
   '0', '1', '2', '3', '4', '5', '6', '7', '8', '9', '+', '/']

/-- Character encoding a six-bit group. -/
def b64Char (n : ℕ) : Char := B64ALPH.getD n 'A'

/-- Index of a character in the base64 alphabet; 64 for a non-alphabet
character (such as the padding `=`). -/
def b64Val (c : Char) : ℕ := B64ALPH.findIdx (fun x => x == c)

/-- `base64.b64encode` on a byte list: three bytes become four sextet
characters; a final group of one or two bytes is padded with `=`. -/
def b64EncodeChunks : List ℕ → List Char
  | [] => []
  | [a] => [b64Char (a / 4), b64Char (a % 4 * 16), '=', '=']
  | [a, b] => [b64Char (a / 4), b64Char (a % 4 * 16 + b / 16), b64Char (b % 16 * 4), '=']
  | a :: b :: c :: rest =>
    b64Char (a / 4) :: b64Char (a % 4 * 16 + b / 16) ::
      b64Char (b % 16 * 4 + c / 64) :: b64Char (c % 64) :: b64EncodeChunks rest

/-- `base64.b64decode` on a character list: four characters at a time, with
the two padded final-group forms; `none` on invalid input. -/
def b64DecodeChunks : List Char → Option (List ℕ)
  | [] => some []
  | c1 :: c2 :: c3 :: c4 :: rest =>
    if c3 = '=' ∧ c4 = '=' ∧ rest = [] then
      if b64Val c1 < 64 ∧ b64Val c2 < 64 then
        some [b64Val c1 * 4 + b64Val c2 / 16]
      else none
    else if c4 = '=' ∧ rest = [] then
      if b64Val c1 < 64 ∧ b64Val c2 < 64 ∧ b64Val c3 < 64 then
        some [b64Val c1 * 4 + b64Val c2 / 16, b64Val c2 % 16 * 16 + b64Val c3 / 4]
      else none
    else
      if b64Val c1 < 64 ∧ b64Val c2 < 64 ∧ b64Val c3 < 64 ∧ b64Val c4 < 64 then
        (b64DecodeChunks rest).map
          (fun bs => (b64Val c1 * 4 + b64Val c2 / 16) ::
            (b64Val c2 % 16 * 16 + b64Val c3 / 4) ::
            (b64Val c3 % 4 * 64 + b64Val c4) :: bs)
      else none
  | _ => none

/-- Model of `s.encode("utf-8")` as code points; identical to UTF-8 for the
ASCII strings this server produces. -/
def strToBytes (s : String) : List ℕ := s.data.map Char.toNat

/-- Inverse of `strToBytes` on byte values that are valid code points. -/
def bytesToStr (bs : List ℕ) : String := String.mk (bs.map Char.ofNat)

/-- Lines 34-36: `wrap_atob(payload_str)` =
`base64.b64encode(payload_str.encode("utf-8")).decode("ascii")`. -/
def wrap_atob (payload_str : String) : String :=
  String.mk (b64EncodeChunks (strToBytes payload_str))

/-- Client-side decode step: base64-decode a string back to text (the
`atob(...)` the pages instruct the client to perform). -/
def b64DecodeStr (s : String) : Option String :=
  (b64DecodeChunks s.data).map bytesToStr

/-- Line 29: the developer-supplied local image path constant. -/
def LOCAL_IMAGE_PATH : String := "/mnt/data/5c3302c6-d159-4ece-bc3a-1b837d5d9516.png"

/-- Line 55: the CSV text embedded by the pdf page. -/
def csv_text : String := "name,value\nA,10\nB,20\nC,30\n"

/-- Line 56: `base64.b64encode(csv_text.encode("utf-8")).decode("ascii")`. -/
def csv_b64 : String := String.mk (b64EncodeChunks (strToBytes csv_text))

/-- Line 109: the fabricated audio data URI of the audio page. -/
def audio_data_uri : String :=
  "data:audio/wav;base64," ++
    String.mk (b64EncodeChunks (strToBytes "SIMULATED AUDIO: numbers 3 4 5"))

/-- The `submit_payload_template` object each page embeds. -/
structure SubmitTemplate where
  email : String
  secret : String
  url : String
  answer : String
deriving DecidableEq

/-- A top-level value of an instructions record: a string or the nested
payload template (the only two shapes occurring in this server). -/
inductive InstrField where
  | str (s : String)
  | tmpl (t : SubmitTemplate)
deriving DecidableEq

/-- JSON string quoting; none of this server's payload strings contains a
character `json.dumps` would escape. -/
def quoteJ (s : String) : String := "\"" ++ s ++ "\""

/-- One nested template object as `json.dumps(..., indent=2)` renders it at
nesting depth one (inner keys at four spaces, closing brace at two). -/
def dumpsTmplInd (t : SubmitTemplate) : String :=
  "\x7b\n    \"email\": " ++ quoteJ t.email ++
    ",\n    \"secret\": " ++ quoteJ t.secret ++
    ",\n    \"url\": " ++ quoteJ t.url ++
    ",\n    \"answer\": " ++ quoteJ t.answer ++ "\n  \x7d"

/-- A top-level instructions value as `json.dumps(..., indent=2)` renders it. -/
def dumpsFieldInd : InstrField → String
  | .str s => quoteJ s
  | .tmpl t => dumpsTmplInd t

/-- The `", "`-free item list of `json.dumps(..., indent=2)`: top-level keys
at two spaces, separated by `",\n"`. -/
def dumpsItemsInd : List (String × InstrField) → String
  | [] => ""
  | [(k, v)] => "  " ++ quoteJ k ++ ": " ++ dumpsFieldInd v
  | (k, v) :: rest => "  " ++ quoteJ k ++ ": " ++ dumpsFieldInd v ++ ",\n" ++ dumpsItemsInd rest

/-- `json.dumps(d, indent=2)` for the two-level instruction records built by
the pdf, image and audio handlers. -/
def dumpsInstrInd (kvs : List (String × InstrField)) : String :=
  "\x7b\n" ++ dumpsItemsInd kvs ++ "\n\x7d"

/-- Lines 58-63: the instructions record of the pdf page. -/
def pdf_instr : List (String × InstrField) :=
  [("question", .str "Download file. What is the sum of the \x27value\x27 column in the CSV?"),
   ("file_data_uri", .str ("data:text/csv;base64," ++ csv_b64)),
   ("submit_url", .str "/fake-submit"),
   ("submit_payload_template",
     .tmpl ⟨"<email>", "<secret>", "http://localhost:8001/pdf-demo", "<sum>"⟩)]

/-- Line 65: `instr` as serialized by `json.dumps(..., indent=2)`. -/
def pdf_instr_str : String := dumpsInstrInd pdf_instr

/-- Lines 82-87: the instructions record of the image page. -/
def image_instr : List (String × InstrField) :=
  [("question", .str "Open the image at the provided local path and OCR to find the number. Post it to /fake-submit"),
   ("image_path", .str LOCAL_IMAGE_PATH),
   ("submit_url", .str "/fake-submit"),
   ("submit_payload_template",
     .tmpl ⟨"<email>", "<secret>", "http://localhost:8001/image-demo", "<number>"⟩)]

/-- Line 88: the serialized image instructions. -/
def image_instr_str : String := dumpsInstrInd image_instr

/-- Lines 107-112: the instructions record of the audio page. -/
def audio_instr : List (String × InstrField) :=
  [("question", .str "Fetch the audio file at the given link and transcribe its numbers, sum them and POST."),
   ("audio_data_uri", .str audio_data_uri),
   ("submit_url", .str "/fake-submit"),
   ("submit_payload_template",
     .tmpl ⟨"<email>", "<secret>", "http://localhost:8001/audio-demo", "<sum>"⟩)]

/-- Line 113: the serialized audio instructions. -/
def audio_instr_str : String := dumpsInstrInd audio_instr

/-- Key lookup in an instructions record. -/
def lookupInstr (kvs : List (String × InstrField)) (k : String) : Option InstrField :=
  (kvs.find? (fun p => p.1 == k)).map (fun p => p.2)

/-- The `url` of the embedded payload template, when present. -/
def instrTemplateUrl (kvs : List (String × InstrField)) : Option String :=
  match lookupInstr kvs "submit_payload_template" with
  | some (.tmpl t) => some t.url
  | _ => none

/-- The top-level `submit_url` string, when present. -/
def instrSubmitUrl (kvs : List (String × InstrField)) : Option String :=
  match lookupInstr kvs "submit_url" with
  | some (.str s) => some s
  | _ => none

/-- A scalar JSON value in the puzzle payload. -/
inductive JLeaf where
  | str (s : String)
  | int (n : ℤ)
deriving DecidableEq

/-- One scalar as `json.dumps` (default formatting) renders it. -/
def dumpsLeaf : JLeaf → String
  | .str s => quoteJ s
  | .int n => toString n

/-- Item list of compact `json.dumps` (default separators `", "`, `": "`). -/
def dumpsLeafItems : List (String × JLeaf) → String
  | [] => ""
  | [(k, v)] => quoteJ k ++ ": " ++ dumpsLeaf v
  | (k, v) :: rest => quoteJ k ++ ": " ++ dumpsLeaf v ++ ", " ++ dumpsLeafItems rest

/-- Compact `json.dumps` of a flat object of scalars. -/
def dumpsObj (kvs : List (String × JLeaf)) : String :=
  "\x7b" ++ dumpsLeafItems kvs ++ "\x7d"

/-- Key lookup in a flat scalar object. -/
def lookupLeaf (kvs : List (String × JLeaf)) (k : String) : Option JLeaf :=
  (kvs.find? (fun p => p.1 == k)).map (fun p => p.2)

/-- Line 129: `payload = {"instructions": ..., "secret_sum": PUZZLE_ANSWER}`. -/
def puzzle_payload : List (String × JLeaf) :=
  [("instructions", .str "Decode gzip+base64 then read \x27secret_sum\x27 and POST it"),
   ("secret_sum", .int 42)]

/-- Line 130: `js = json.dumps(payload).encode("utf-8")`. -/
def puzzle_js : List ℕ := strToBytes (dumpsObj puzzle_payload)

/-- Lines 131-132: `gz = gzip.compress(js)` followed by
`gz_b64 = base64.b64encode(gz).decode("ascii")`, for a given model
`gzipCompress` of the gzip compressor. -/
def puzzle_gz_b64 (gzipCompress : List ℕ → List ℕ) : String :=
  String.mk (b64EncodeChunks (gzipCompress puzzle_js))

/-- The f-string of lines 134-141 up to the interpolated `gz_b64`. -/
def PUZZLE_PRE : String := "\n    \x7b\n      \"payload_gz_b64\": \""

/-- The f-string of lines 134-141 after the interpolated `gz_b64`. -/
def PUZZLE_POST : String :=
  "\",\n      \"hint\": \"base64 of gzipped JSON; decode and gunzip to reveal secret_sum\",\n      \"submit_url\": \"/fake-submit\",\n      \"submit_payload_template\": \x7b \"email\":\"<email>\", \"secret\":\"<secret>\", \"url\":\"http://localhost:8001/puzzle-demo\", \"answer\":\"<secret_sum>\" \x7d\n    \x7d\n    "

/-- Lines 134-141: the hand-written JSON text of the puzzle instructions
with `gz_b64` interpolated. -/
def puzzle_instr_str (gz_b64 : String) : String := PUZZLE_PRE ++ gz_b64 ++ PUZZLE_POST

/-- The canonical URL of each stage as embedded in the payload templates. -/
def canonicalUrl : Stage → String
  | .pdf => "http://localhost:8001/pdf-demo"
  | .image => "http://localhost:8001/image-demo"
  | .audio => "http://localhost:8001/audio-demo"
  | .puzzle => "http://localhost:8001/puzzle-demo"

/-- `pat` occurs as a contiguous substring of `s`. -/
def hasSub (s pat : String) : Prop :=
  ∃ l r : List Char, s.data = l ++ (pat.data ++ r)

/-! ## Helper lemmas: the base64 coder round-trips -/

theorem b64Val_b64Char : ∀ n, n < 64 → b64Val (b64Char n) = n := by decide

theorem b64Char_ne_pad : ∀ n, n < 64 → b64Char n ≠ '=' := by decide

theorem b64Char_lt_aux : ∀ n, n < 64 → (b64Char n).toNat < 256 := by decide

theorem b64Char_toNat_lt (n : ℕ) : (b64Char n).toNat < 256 := by
  rcases lt_or_ge n 64 with h | h
  · exact b64Char_lt_aux n h
  · have hd : b64Char n = 'A' := by
      apply List.getD_eq_default
      exact le_trans (by decide) h
    rw [hd]; decide

/-- Decoding inverts encoding on genuine byte lists. -/
theorem b64_roundtrip : ∀ (bs : List ℕ), (∀ b ∈ bs, b < 256) →
    b64DecodeChunks (b64EncodeChunks bs) = some bs
  | [], _ => rfl
  | [a], h => by
    have ha : a < 256 := h a (by simp)
    have h1 : a / 4 < 64 := by omega
    have h2 : a % 4 * 16 < 64 := by omega
    simp only [b64EncodeChunks, b64DecodeChunks]
    rw [b64Val_b64Char _ h1, b64Val_b64Char _ h2]
    rw [if_pos (by simp), if_pos ⟨h1, h2⟩]
    have e1 : a / 4 * 4 + a % 4 * 16 / 16 = a := by omega
    rw [e1]
  | [a, b], h => by
    have ha : a < 256 := h a (by simp)
    have hb : b < 256 := h b (by simp)
    have h1 : a / 4 < 64 := by omega
    have h2 : a % 4 * 16 + b / 16 < 64 := by omega
    have h3 : b % 16 * 4 < 64 := by omega
    simp only [b64EncodeChunks, b64DecodeChunks]
    rw [b64Val_b64Char _ h1, b64Val_b64Char _ h2, b64Val_b64Char _ h3]
    rw [if_neg (fun hh => b64Char_ne_pad _ h3 hh.1), if_pos (by simp),
      if_pos ⟨h1, h2, h3⟩]
    have e1 : a / 4 * 4 + (a % 4 * 16 + b / 16) / 16 = a := by omega
    have e2 : (a % 4 * 16 + b / 16) % 16 * 16 + b % 16 * 4 / 4 = b := by omega
    rw [e1, e2]
  | a :: b :: c :: rest, h => by
    have ha : a < 256 := h a (by simp)
    have hb : b < 256 := h b (by simp)
    have hc : c < 256 := h c (by simp)
    have ih := b64_roundtrip rest (fun x hx => h x (by simp [hx]))
    have h1 : a / 4 < 64 := by omega
    have h2 : a % 4 * 16 + b / 16 < 64 := by omega
    have h3 : b % 16 * 4 + c / 64 < 64 := by omega
    have h4 : c % 64 < 64 := by omega
    simp only [b64EncodeChunks, b64DecodeChunks]
    rw [b64Val_b64Char _ h1, b64Val_b64Char _ h2, b64Val_b64Char _ h3,
      b64Val_b64Char _ h4]
    rw [if_neg (fun hh => b64Char_ne_pad _ h3 hh.1),
      if_neg (fun hh => b64Char_ne_pad _ h4 hh.1),
      if_pos ⟨h1, h2, h3, h4⟩, ih]
    have e1 : a / 4 * 4 + (a % 4 * 16 + b / 16) / 16 = a := by omega
    have e2 : (a % 4 * 16 + b / 16) % 16 * 16 + (b % 16 * 4 + c / 64) / 4 = b := by omega
    have e3 : (b % 16 * 4 + c / 64) % 4 * 64 + c % 64 = c := by omega
    simp only [Option.map_some']
    rw [e1, e2, e3]

/-- Every character the encoder emits is an ASCII character. -/
theorem b64Encode_toNat_lt : ∀ (bs : List ℕ) c, c ∈ b64EncodeChunks bs → c.toNat < 256
  | [], _, hc => by simp [b64EncodeChunks] at hc
  | [a], cc, hc => by
    simp only [b64EncodeChunks, List.mem_cons, List.not_mem_nil, or_false] at hc
    rcases hc with rfl | rfl | rfl | rfl
    · exact b64Char_toNat_lt _
    · exact b64Char_toNat_lt _
    · decide
    · decide
  | [a, b], cc, hc => by
    simp only [b64EncodeChunks, List.mem_cons, List.not_mem_nil, or_false] at hc
    rcases hc with rfl | rfl | rfl | rfl
    · exact b64Char_toNat_lt _
    · exact b64Char_toNat_lt _
    · exact b64Char_toNat_lt _
    · decide
  | a :: b :: c :: rest, cc, hc => by
    simp only [b64EncodeChunks, List.mem_cons] at hc
    rcases hc with rfl | rfl | rfl | rfl | hm
    · exact b64Char_toNat_lt _
    · exact b64Char_toNat_lt _
    · exact b64Char_toNat_lt _
    · exact b64Char_toNat_lt _
    · exact b64Encode_toNat_lt rest cc hm

theorem str_data_append (a b : String) : (a ++ b).data = a.data ++ b.data := rfl

theorem bytesToStr_strToBytes (s : String) : bytesToStr (strToBytes s) = s := by
  have h1 : (strToBytes s).map Char.ofNat = s.data := by
    simp only [strToBytes, List.map_map]
    rw [show (Char.ofNat ∘ Char.toNat) = id from funext fun c => Char.ofNat_toNat c]
    exact List.map_id s.data
  simp only [bytesToStr, h1]

theorem wrap_atob_roundtrip (s : String) (h : ∀ c ∈ s.data, c.toNat < 256) :
    b64DecodeStr (wrap_atob s) = some s := by
  have hb : ∀ b ∈ strToBytes s, b < 256 := by
    intro b hbb
    simp only [strToBytes, List.mem_map] at hbb
    obtain ⟨c, hc, rfl⟩ := hbb
    exact h c hc
  simp only [b64DecodeStr, wrap_atob]
  rw [b64_roundtrip _ hb]
  simp only [Option.map_some']
  rw [bytesToStr_strToBytes]

/-! ## Helper lemmas: the grader -/

theorem endswith_iff (s p : String) : pyEndswith s p = true ↔ p.data <:+ s.data := by
  simp [pyEndswith, List.isSuffixOf_iff_suffix]

theorem fs_missing (e s u a : JVal)
    (h : pyTruthy e = false ∨ pyTruthy s = false ∨ pyTruthy u = false) :
    fake_submit (.okJson e s u a) = .response 200 ⟨false, "missing fields", .absent⟩ := by
  simp only [fake_submit]
  rcases h with h | h | h <;> simp [h]

theorem fs_graded (e s : JVal) (u : String) (a : JVal)
    (he : pyTruthy e = true) (hs : pyTruthy s = true) (hu : u ≠ "") :
    fake_submit (.okJson e s (.jstr u) a) = gradeUrl u a := by
  have ht : pyTruthy (.jstr u) = true := by simp [pyTruthy, hu]
  simp [fake_submit, he, hs, ht]

theorem fs_nonstring (e s u a : JVal)
    (he : pyTruthy e = true) (hs : pyTruthy s = true) (hu : pyTruthy u = true)
    (hns : ∀ str : String, u ≠ .jstr str) :
    fake_submit (.okJson e s u a) = .exn "AttributeError" := by
  cases u with
  | jnull => simp [pyTruthy] at hu
  | jbool b => simp [fake_submit, he, hs, hu]
  | jnum q => simp [fake_submit, he, hs, hu]
  | jstr str => exact absurd rfl (hns str)

theorem stageOf_ne_empty {u : String} {st : Stage} (h : stageOf u = some st) : u ≠ "" := by
  intro he
  subst he
  rw [show stageOf "" = none from by decide] at h
  exact Option.noConfusion h

theorem gradeUrl_unknown (u : String) (a : JVal) (h : stageOf u = none) :
    gradeUrl u a = .response 200 ⟨false, "unknown url", .null⟩ := by
  simp [gradeUrl, h]

theorem gradeUrl_stage {u : String} {st : Stage} (a : JVal) (h : stageOf u = some st) :
    gradeUrl u a = gradeStage st a := by
  simp [gradeUrl, h]

theorem gradeStage_parse_none {a : JVal} (st : Stage) (h : parseAnswer a = none) :
    gradeStage st a = .response 200 ⟨false, "Wrong answer", fullNext (next_urlOf st)⟩ := by
  simp [gradeStage, h]

theorem gradeStage_parse_some {a : JVal} {x : ℚ} (st : Stage) (h : parseAnswer a = some x) :
    gradeStage st a =
      if |x - expectedOf st| < 1 / 1000000 then
        .response 200 ⟨true, "", fullNext (next_urlOf st)⟩
      else
        .response 200 ⟨false, "Wrong answer", fullNext (next_urlOf st)⟩ := by
  simp [gradeStage, h]

theorem suffix_excl {u p q : String} (hp : pyEndswith u p = true)
    (h1 : ¬ (p.data <:+ q.data)) (h2 : ¬ (q.data <:+ p.data)) :
    pyEndswith u q = false := by
  by_contra h
  have hq : pyEndswith u q = true := by revert h; cases pyEndswith u q <;> simp
  rcases List.suffix_or_suffix_of_suffix ((endswith_iff u p).1 hp)
    ((endswith_iff u q).1 hq) with h3 | h3
  · exact h1 h3
  · exact h2 h3

theorem stageOf_of_endswith_pdf {u : String} (h : pyEndswith u "/pdf-demo" = true) :
    stageOf u = some .pdf := by
  simp [stageOf, h]

theorem stageOf_of_endswith_puzzle {u : String} (h : pyEndswith u "/puzzle-demo" = true) :
    stageOf u = some .puzzle := by
  have h1 := suffix_excl h (q := "/pdf-demo") (by decide) (by decide)
  have h2 := suffix_excl h (q := "/image-demo") (by decide) (by decide)
  have h3 := suffix_excl h (q := "/audio-demo") (by decide) (by decide)
  simp [stageOf, h, h1, h2, h3]

theorem stageOf_eq_firstMatch (u : String) : stageOf u = firstMatchStage u := by
  simp only [stageOf, firstMatchStage, stagePathTable]
  by_cases h1 : pyEndswith u "/pdf-demo" <;>
    by_cases h2 : pyEndswith u "/image-demo" <;>
    by_cases h3 : pyEndswith u "/audio-demo" <;>
    by_cases h4 : pyEndswith u "/puzzle-demo" <;>
    simp [h1, h2, h3, h4]

/-! ## Claim theorems -/

/-- C1 (amended): for a submission carrying non-empty (truthy) `email` and
`secret` whose url ends with the pdf stage path, grading with answer "60"
returns `{correct: true, reason: "", url: <base>/image-demo}` and grading
with answer "59" returns `{correct: false, reason: "Wrong answer",
url: <base>/image-demo}`; in both cases the successor URL of the pdf stage
is surfaced. -/
theorem c1_pdf_examples (email secret : JVal) (u : String)
    (he : pyTruthy email = true) (hs : pyTruthy secret = true)
    (hu : pyEndswith u "/pdf-demo" = true) :
    fake_submit (.okJson email secret (.jstr u) (.jstr "60"))
      = .response 200 ⟨true, "", .link "http://localhost:8001/image-demo"⟩ ∧
    fake_submit (.okJson email secret (.jstr u) (.jstr "59"))
      = .response 200 ⟨false, "Wrong answer", .link "http://localhost:8001/image-demo"⟩ := by
  have hst := stageOf_of_endswith_pdf hu
  have hne := stageOf_ne_empty hst
  constructor
  · rw [fs_graded _ _ _ _ he hs hne, gradeUrl_stage _ hst,
      gradeStage_parse_some .pdf (show parseAnswer (.jstr "60") = some 60 from by decide),
      if_pos (by norm_num [expectedOf, PDF_SUM_ANSWER])]
    rfl
  · rw [fs_graded _ _ _ _ he hs hne, gradeUrl_stage _ hst,
      gradeStage_parse_some .pdf (show parseAnswer (.jstr "59") = some 59 from by decide),
      if_neg (by norm_num [expectedOf, PDF_SUM_ANSWER])]
    rfl

/-- C1 witness: a concrete graded pdf submission for both answers. -/
theorem c1_witness :
    pyTruthy (.jstr "student@example.com") = true ∧
    pyTruthy (.jstr "tds-secret") = true ∧
    pyEndswith "http://localhost:8001/pdf-demo" "/pdf-demo" = true ∧
    (fake_submit (.okJson (.jstr "student@example.com") (.jstr "tds-secret")
        (.jstr "http://localhost:8001/pdf-demo") (.jstr "60"))
      = .response 200 ⟨true, "", .link "http://localhost:8001/image-demo"⟩ ∧
    fake_submit (.okJson (.jstr "student@example.com") (.jstr "tds-secret")
        (.jstr "http://localhost:8001/pdf-demo") (.jstr "59"))
      = .response 200 ⟨false, "Wrong answer", .link "http://localhost:8001/image-demo"⟩) :=
  ⟨by decide, by decide, by decide,
    c1_pdf_examples _ _ _ (by decide) (by decide) (by decide)⟩

/-- C1 counterexample: the spec's example request (`url` and `answer` only,
no identity fields) is not graded by this code: it receives the
"missing fields" verdict instead of the claimed `{correct: true, ...}`. -/
theorem c1_counterexample :
    fake_submit (.okJson .jnull .jnull
        (.jstr "http://localhost:8001/pdf-demo") (.jstr "60"))
      = .response 200 ⟨false, "missing fields", .absent⟩ ∧
    (⟨false, "missing fields", .absent⟩ : Verdict)
      ≠ ⟨true, "", .link "http://localhost:8001/image-demo"⟩ :=
  ⟨by decide, by decide⟩

/-- C2 (amended): the stage is determined by testing the url against the four
known suffixes in the fixed priority order pdf → image → audio → puzzle,
first match winning; the successors are image, audio, puzzle and none; for a
submission with non-empty identity fields, a correct puzzle submission
returns `url: null`, and an url matching no suffix yields
`{correct: false, reason: "unknown url", url: null}`. -/
theorem c2_dispatch :
    (∀ u : String, stageOf u = firstMatchStage u) ∧
    next_urlOf .pdf = some "/image-demo" ∧
    next_urlOf .image = some "/audio-demo" ∧
    next_urlOf .audio = some "/puzzle-demo" ∧
    next_urlOf .puzzle = none ∧
    (∀ (email secret : JVal) (u : String), pyTruthy email = true →
      pyTruthy secret = true → pyEndswith u "/puzzle-demo" = true →
      fake_submit (.okJson email secret (.jstr u) (.jstr "42"))
        = .response 200 ⟨true, "", .null⟩) ∧
    (∀ (email secret : JVal) (u : String) (answer : JVal), pyTruthy email = true →
      pyTruthy secret = true → u ≠ "" →
      (∀ p ∈ stagePathTable, pyEndswith u p.2 = false) →
      fake_submit (.okJson email secret (.jstr u) answer)
        = .response 200 ⟨false, "unknown url", .null⟩) := by
  refine ⟨stageOf_eq_firstMatch, rfl, rfl, rfl, rfl, ?_, ?_⟩
  · intro email secret u he hs hu
    have hst := stageOf_of_endswith_puzzle hu
    rw [fs_graded _ _ _ _ he hs (stageOf_ne_empty hst), gradeUrl_stage _ hst,
      gradeStage_parse_some .puzzle (show parseAnswer (.jstr "42") = some 42 from by decide),
      if_pos (by norm_num [expectedOf, PUZZLE_ANSWER])]
    rfl
  · intro email secret u answer he hs hne hnm
    have h1 := hnm (.pdf, "/pdf-demo") (by decide)
    have h2 := hnm (.image, "/image-demo") (by decide)
    have h3 := hnm (.audio, "/audio-demo") (by decide)
    have h4 := hnm (.puzzle, "/puzzle-demo") (by decide)
    have hst : stageOf u = none := by simp [stageOf, h1, h2, h3, h4]
    rw [fs_graded _ _ _ _ he hs hne, gradeUrl_unknown _ _ hst]

/-- C2 witness: concrete instances of the puzzle-terminal and unknown-url
conjuncts. -/
theorem c2_witness :
    pyTruthy (.jstr "a@b.c") = true ∧ pyTruthy (.jstr "k") = true ∧
    pyEndswith "http://localhost:8001/puzzle-demo" "/puzzle-demo" = true ∧
    fake_submit (.okJson (.jstr "a@b.c") (.jstr "k")
        (.jstr "http://localhost:8001/puzzle-demo") (.jstr "42"))
      = .response 200 ⟨true, "", .null⟩ ∧
    (∀ p ∈ stagePathTable, pyEndswith "https://example.com/nonsense" p.2 = false) ∧
    fake_submit (.okJson (.jstr "a@b.c") (.jstr "k")
        (.jstr "https://example.com/nonsense") (.jstr "60"))
      = .response 200 ⟨false, "unknown url", .null⟩ :=
  ⟨by decide, by decide, by decide,
    c2_dispatch.2.2.2.2.2.1 _ _ _ (by decide) (by decide) (by decide),
    by decide,
    c2_dispatch.2.2.2.2.2.2 _ _ _ _ (by decide) (by decide) (by decide) (by decide)⟩

/-- C2 counterexample: the spec's unknown-url example (`url` only, no
identity fields) does not receive the claimed "unknown url" verdict on this
code; it receives "missing fields". -/
theorem c2_counterexample :
    fake_submit (.okJson .jnull .jnull (.jstr "https://example.com/nonsense") .jnull)
      = .response 200 ⟨false, "missing fields", .absent⟩ ∧
    "missing fields" ≠ "unknown url" :=
  ⟨by decide, by decide⟩

/-- C3 (amended): a body that fails JSON parsing is rejected with a 400
error; missing fields, unknown (string) urls, unparsable answers and wrong
answers all produce status-200 responses with `correct: false` and a
descriptive reason — but JSON parse failure is not the only hard failure:
a well-formed body whose `url` is a truthy non-string raises an unhandled
exception. -/
theorem c3_error_model :
    fake_submit .badJson = .httpError 400 "invalid json" ∧
    (∀ e s u a : JVal,
      (pyTruthy e = false ∨ pyTruthy s = false ∨ pyTruthy u = false) →
      fake_submit (.okJson e s u a)
        = .response 200 ⟨false, "missing fields", .absent⟩) ∧
    (∀ (e s : JVal) (u : String) (a : JVal), pyTruthy e = true →
      pyTruthy s = true → u ≠ "" → stageOf u = none →
      fake_submit (.okJson e s (.jstr u) a)
        = .response 200 ⟨false, "unknown url", .null⟩) ∧
    (∀ (e s : JVal) (u : String) (st : Stage) (a : JVal), pyTruthy e = true →
      pyTruthy s = true → stageOf u = some st → parseAnswer a = none →
      fake_submit (.okJson e s (.jstr u) a)
        = .response 200 ⟨false, "Wrong answer", fullNext (next_urlOf st)⟩) ∧
    (∀ (e s : JVal) (u : String) (st : Stage) (a : JVal) (x : ℚ),
      pyTruthy e = true → pyTruthy s = true → stageOf u = some st →
      parseAnswer a = some x → ¬ (|x - expectedOf st| < 1 / 1000000) →
      fake_submit (.okJson e s (.jstr u) a)
        = .response 200 ⟨false, "Wrong answer", fullNext (next_urlOf st)⟩) ∧
    (∀ e s u a : JVal, pyTruthy e = true → pyTruthy s = true →
      pyTruthy u = true → (∀ str : String, u ≠ .jstr str) →
      fake_submit (.okJson e s u a) = .exn "AttributeError") := by
  refine ⟨rfl, fs_missing, ?_, ?_, ?_, fs_nonstring⟩
  · intro e s u a he hs hne hst
    rw [fs_graded _ _ _ _ he hs hne, gradeUrl_unknown _ _ hst]
  · intro e s u st a he hs hst hp
    rw [fs_graded _ _ _ _ he hs (stageOf_ne_empty hst), gradeUrl_stage _ hst,
      gradeStage_parse_none st hp]
  · intro e s u st a x he hs hst hp hx
    rw [fs_graded _ _ _ _ he hs (stageOf_ne_empty hst), gradeUrl_stage _ hst,
      gradeStage_parse_some st hp, if_neg hx]

/-- C3 witness: concrete instances of each tier. -/
theorem c3_witness :
    fake_submit .badJson = .httpError 400 "invalid json" ∧
    fake_submit (.okJson .jnull (.jstr "k") (.jstr "u") .jnull)
      = .response 200 ⟨false, "missing fields", .absent⟩ ∧
    fake_submit (.okJson (.jstr "e@f.g") (.jstr "k") (.jstr "https://x.example/other") .jnull)
      = .response 200 ⟨false, "unknown url", .null⟩ ∧
    fake_submit (.okJson (.jstr "e@f.g") (.jstr "k")
        (.jstr "http://localhost:8001/audio-demo") (.jstr "later"))
      = .response 200 ⟨false, "Wrong answer", fullNext (next_urlOf .audio)⟩ ∧
    fake_submit (.okJson (.jstr "e@f.g") (.jstr "k")
        (.jstr "http://localhost:8001/audio-demo") (.jstr "13"))
      = .response 200 ⟨false, "Wrong answer", fullNext (next_urlOf .audio)⟩ ∧
    fake_submit (.okJson (.jstr "e@f.g") (.jstr "k") (.jbool true) .jnull)
      = .exn "AttributeError" :=
  ⟨c3_error_model.1,
    c3_error_model.2.1 _ _ _ _ (Or.inl (by decide)),
    c3_error_model.2.2.1 _ _ _ _ (by decide) (by decide) (by decide) (by decide),
    c3_error_model.2.2.2.1 _ _ _ .audio _ (by decide) (by decide) (by decide) (by decide),
    c3_error_model.2.2.2.2.1 _ _ _ .audio _ 13 (by decide) (by decide) (by decide)
      (by decide) (by norm_num [expectedOf, AUDIO_ANSWER]),
    c3_error_model.2.2.2.2.2 _ _ _ _ (by decide) (by decide) (by decide) (by simp)⟩

/-- C3 counterexample: a well-formed JSON body (truthy email/secret, numeric
url) produces an unhandled exception — a hard failure that is not the JSON
parse failure, so the latter is not the only hard failure; no verdict is
carried. -/
theorem c3_counterexample :
    fake_submit (.okJson (.jstr "x@y.z") (.jstr "tok") (.jnum 5) (.jstr "60"))
      = .exn "AttributeError" ∧
    respCorrect (fake_submit (.okJson (.jstr "x@y.z") (.jstr "tok")
        (.jnum 5) (.jstr "60"))) = none :=
  ⟨by decide, by decide⟩

/-- C4 (amended): `email`, `secret` and `url` are all required to be present
and truthy (non-empty): a submission in which any of them is absent or falsy
— including the spec's no-`url` example — receives the soft status-200
verdict `{correct: false, reason: "missing fields"}` with no `url` key,
never a hard error. -/
theorem c4_required_fields (email secret url answer : JVal) :
    ((pyTruthy email = false ∨ pyTruthy secret = false ∨ pyTruthy url = false) →
      fake_submit (.okJson email secret url answer)
        = .response 200 ⟨false, "missing fields", .absent⟩) ∧
    fake_submit (.okJson email secret .jnull answer)
      = .response 200 ⟨false, "missing fields", .absent⟩ :=
  ⟨fs_missing email secret url answer,
    fs_missing email secret .jnull answer (Or.inr (Or.inr rfl))⟩

/-- C4 witness: a no-`url` submission and a falsy-email submission. -/
theorem c4_witness :
    pyTruthy (JVal.jnull) = false ∧
    fake_submit (.okJson .jnull (.jstr "k") (.jstr "http://localhost:8001/pdf-demo") (.jstr "60"))
      = .response 200 ⟨false, "missing fields", .absent⟩ ∧
    fake_submit (.okJson (.jstr "e@f.g") (.jstr "k") .jnull (.jstr "60"))
      = .response 200 ⟨false, "missing fields", .absent⟩ :=
  ⟨by decide,
    (c4_required_fields .jnull (.jstr "k")
      (.jstr "http://localhost:8001/pdf-demo") (.jstr "60")).1 (Or.inl (by decide)),
    (c4_required_fields (.jstr "e@f.g") (.jstr "k") .jnull (.jstr "60")).2⟩

/-- C4 counterexample: a submission with a valid url and answer but no email
and secret is not graded — it receives the "missing fields" verdict, whose
reason is neither of the graded reasons. -/
theorem c4_counterexample :
    fake_submit (.okJson .jnull .jnull
        (.jstr "http://localhost:8001/audio-demo") (.jstr "12"))
      = .response 200 ⟨false, "missing fields", .absent⟩ ∧
    "missing fields" ≠ "" ∧ "missing fields" ≠ "Wrong answer" :=
  ⟨by decide, by decide, by decide⟩

/-- C5 (amended): for a submission with non-empty identity fields whose url
matches a known stage, an answer that does not parse as a float (including
an absent answer) yields `{correct: false, reason: "Wrong answer",
url: successor}` — the successor URL is still surfaced despite the parse
failure. -/
theorem c5_nonnumeric (email secret : JVal) (u : String) (st : Stage) (answer : JVal)
    (he : pyTruthy email = true) (hs : pyTruthy secret = true)
    (hst : stageOf u = some st) (hp : parseAnswer answer = none) :
    fake_submit (.okJson email secret (.jstr u) answer)
      = .response 200 ⟨false, "Wrong answer", fullNext (next_urlOf st)⟩ := by
  rw [fs_graded _ _ _ _ he hs (stageOf_ne_empty hst), gradeUrl_stage _ hst,
    gradeStage_parse_none st hp]

/-- C5 witness: an absent answer at the image stage still surfaces the
audio-stage successor URL. -/
theorem c5_witness :
    pyTruthy (.jstr "w@x.y") = true ∧ pyTruthy (.jstr "k") = true ∧
    stageOf "http://localhost:8001/image-demo" = some .image ∧
    parseAnswer .jnull = none ∧
    fake_submit (.okJson (.jstr "w@x.y") (.jstr "k")
        (.jstr "http://localhost:8001/image-demo") .jnull)
      = .response 200 ⟨false, "Wrong answer", fullNext (next_urlOf .image)⟩ :=
  ⟨by decide, by decide, by decide, by decide,
    c5_nonnumeric _ _ _ .image _ (by decide) (by decide) (by decide) (by decide)⟩

/-- C5 counterexample: a validated pdf-stage submission with the non-numeric
answer "abc" gets reason "Wrong answer", not the claimed "not numeric". -/
theorem c5_counterexample :
    fake_submit (.okJson (.jstr "a@b.c") (.jstr "sec")
        (.jstr "http://localhost:8001/pdf-demo") (.jstr "abc"))
      = .response 200 ⟨false, "Wrong answer", .link "http://localhost:8001/image-demo"⟩ ∧
    "Wrong answer" ≠ "not numeric" :=
  ⟨by decide, by decide⟩

/-- C6 (amended): for a submission with non-empty identity fields whose url
matches a known stage and whose answer parses to a number `x`, the verdict's
`correct` flag is exactly `|x - expected| < 1e-6`, where the expected
values of the pdf, image, audio and puzzle stages are the fixed constants
60, 777, 12 and 42. -/
theorem c6_tolerance (email secret : JVal) (u : String) (st : Stage) (answer : JVal) (x : ℚ)
    (he : pyTruthy email = true) (hs : pyTruthy secret = true)
    (hst : stageOf u = some st) (hp : parseAnswer answer = some x) :
    respCorrect (fake_submit (.okJson email secret (.jstr u) answer))
      = some (decide (|x - expectedOf st| < 1 / 1000000)) ∧
    expectedOf .pdf = 60 ∧ expectedOf .image = 777 ∧
    expectedOf .audio = 12 ∧ expectedOf .puzzle = 42 := by
  refine ⟨?_, by norm_num [expectedOf, PDF_SUM_ANSWER],
    by norm_num [expectedOf, IMAGE_OCR_ANSWER],
    by norm_num [expectedOf, AUDIO_ANSWER],
    by norm_num [expectedOf, PUZZLE_ANSWER]⟩
  rw [fs_graded _ _ _ _ he hs (stageOf_ne_empty hst), gradeUrl_stage _ hst,
    gradeStage_parse_some st hp]
  by_cases h : |x - expectedOf st| < 1 / 1000000
  · rw [if_pos h]
    simp only [respCorrect]
    rw [decide_eq_true h]
  · rw [if_neg h]
    simp only [respCorrect]
    rw [decide_eq_false h]

/-- C6 witness: a validated image-stage submission with answer "777". -/
theorem c6_witness :
    pyTruthy (.jstr "w@x.y") = true ∧ pyTruthy (.jstr "k") = true ∧
    stageOf "http://localhost:8001/image-demo" = some .image ∧
    parseAnswer (.jstr "777") = some 777 ∧
    (respCorrect (fake_submit (.okJson (.jstr "w@x.y") (.jstr "k")
        (.jstr "http://localhost:8001/image-demo") (.jstr "777")))
      = some (decide (|(777 : ℚ) - expectedOf .image| < 1 / 1000000)) ∧
    expectedOf .pdf = 60 ∧ expectedOf .image = 777 ∧
    expectedOf .audio = 12 ∧ expectedOf .puzzle = 42) :=
  ⟨by decide, by decide, by decide, by decide,
    c6_tolerance _ _ _ .image _ 777 (by decide) (by decide) (by decide) (by decide)⟩

/-- C6 counterexample: for the spec's identity-less reading of "submission",
the biconditional fails — an image-stage submission with answer "777" and no
identity fields has `correct = false` although `|777 - expected| < 1e-6`. -/
theorem c6_counterexample :
    respCorrect (fake_submit (.okJson .jnull .jnull
        (.jstr "http://localhost:8001/image-demo") (.jstr "777"))) = some false ∧
    parseAnswer (.jstr "777") = some 777 ∧
    stageOf "http://localhost:8001/image-demo" = some .image ∧
    |(777 : ℚ) - expectedOf .image| < 1 / 1000000 :=
  ⟨by decide, by decide, by decide, by norm_num [expectedOf, IMAGE_OCR_ANSWER]⟩

/-- C7 (amended): decoding the puzzle page's embedded payload — base64
decode, then gzip decompression by any decompressor inverting the compressor
used at render time, then JSON parsing — yields the serialized object
`{"instructions": "Decode gzip+base64 then read 'secret_sum' and POST it",
"secret_sum": 42}`, whose `secret_sum` member is 42. -/
theorem c7_puzzle_payload (gzipCompress : List ℕ → List ℕ)
    (gzipDecompress : List ℕ → Option (List ℕ))
    (hround : gzipDecompress (gzipCompress puzzle_js) = some puzzle_js)
    (hbytes : ∀ b ∈ gzipCompress puzzle_js, b < 256) :
    (b64DecodeChunks (puzzle_gz_b64 gzipCompress).data).bind gzipDecompress
      = some puzzle_js ∧
    bytesToStr puzzle_js = dumpsObj puzzle_payload ∧
    lookupLeaf puzzle_payload "secret_sum" = some (.int 42) ∧
    lookupLeaf puzzle_payload "instructions"
      = some (.str "Decode gzip+base64 then read \x27secret_sum\x27 and POST it") := by
  refine ⟨?_, bytesToStr_strToBytes _, by decide, by decide⟩
  rw [show (puzzle_gz_b64 gzipCompress).data
      = b64EncodeChunks (gzipCompress puzzle_js) from rfl]
  rw [b64_roundtrip _ hbytes]
  simpa using hround

/-- C7 witness: instantiating the compressor pair with the identity coder. -/
theorem c7_witness :
    ((fun bs => some bs) (id puzzle_js) = some puzzle_js) ∧
    (∀ b ∈ id puzzle_js, b < 256) ∧
    ((b64DecodeChunks (puzzle_gz_b64 id).data).bind (fun bs => some bs)
        = some puzzle_js ∧
      bytesToStr puzzle_js = dumpsObj puzzle_payload ∧
      lookupLeaf puzzle_payload "secret_sum" = some (.int 42) ∧
      lookupLeaf puzzle_payload "instructions"
        = some (.str "Decode gzip+base64 then read \x27secret_sum\x27 and POST it")) :=
  ⟨rfl, by decide, c7_puzzle_payload id (fun bs => some bs) rfl (by decide)⟩

/-- C7 counterexample: the decoded payload is not the bare object
`{"secret_sum": 42}` — it also carries the `instructions` member. -/
theorem c7_counterexample :
    bytesToStr puzzle_js ≠ dumpsObj [("secret_sum", JLeaf.int 42)] ∧
    puzzle_payload ≠ [("secret_sum", JLeaf.int 42)] ∧
    lookupLeaf puzzle_payload "instructions" ≠ none :=
  ⟨by decide, by decide, by decide⟩

/-- C8: for each stage, the page's embedded base64 blob decodes back to the
instructions text; for the three `json.dumps` pages that text is the
rendering of a record whose template `url` is the stage's canonical URL and
whose `submit_url` is the grading path, and the puzzle page's hand-written
JSON text contains its canonical `url` and `submit_url` fields verbatim. -/
theorem c8_embedded_instructions (gzipCompress : List ℕ → List ℕ) :
    (b64DecodeStr (wrap_atob pdf_instr_str) = some pdf_instr_str ∧
      pdf_instr_str = dumpsInstrInd pdf_instr ∧
      instrTemplateUrl pdf_instr = some (canonicalUrl .pdf) ∧
      instrSubmitUrl pdf_instr = some "/fake-submit") ∧
    (b64DecodeStr (wrap_atob image_instr_str) = some image_instr_str ∧
      image_instr_str = dumpsInstrInd image_instr ∧
      instrTemplateUrl image_instr = some (canonicalUrl .image) ∧
      instrSubmitUrl image_instr = some "/fake-submit") ∧
    (b64DecodeStr (wrap_atob audio_instr_str) = some audio_instr_str ∧
      audio_instr_str = dumpsInstrInd audio_instr ∧
      instrTemplateUrl audio_instr = some (canonicalUrl .audio) ∧
      instrSubmitUrl audio_instr = some "/fake-submit") ∧
    (b64DecodeStr (wrap_atob (puzzle_instr_str (puzzle_gz_b64 gzipCompress)))
        = some (puzzle_instr_str (puzzle_gz_b64 gzipCompress)) ∧
      hasSub (puzzle_instr_str (puzzle_gz_b64 gzipCompress))
        ("\"url\":\"" ++ canonicalUrl .puzzle ++ "\"") ∧
      hasSub (puzzle_instr_str (puzzle_gz_b64 gzipCompress))
        "\"submit_url\": \"/fake-submit\"") := by
  refine ⟨⟨wrap_atob_roundtrip _ (by decide), rfl, by decide, by decide⟩,
    ⟨wrap_atob_roundtrip _ (by decide), rfl, by decide, by decide⟩,
    ⟨wrap_atob_roundtrip _ (by decide), rfl, by decide, by decide⟩,
    ?_, ?_, ?_⟩
  · apply wrap_atob_roundtrip
    intro c hc
    simp only [puzzle_instr_str, str_data_append, List.mem_append] at hc
    rcases hc with (hc | hc) | hc
    · exact (by decide : ∀ c ∈ PUZZLE_PRE.data, c.toNat < 256) c hc
    · rw [show (puzzle_gz_b64 gzipCompress).data
          = b64EncodeChunks (gzipCompress puzzle_js) from rfl] at hc
      exact b64Encode_toNat_lt _ c hc
    · exact (by decide : ∀ c ∈ PUZZLE_POST.data, c.toNat < 256) c hc
  · refine ⟨(PUZZLE_PRE ++ puzzle_gz_b64 gzipCompress).data
        ++ "\",\n      \"hint\": \"base64 of gzipped JSON; decode and gunzip to reveal secret_sum\",\n      \"submit_url\": \"/fake-submit\",\n      \"submit_payload_template\": \x7b \"email\":\"<email>\", \"secret\":\"<secret>\", ".data,
      ", \"answer\":\"<secret_sum>\" \x7d\n    \x7d\n    ".data, ?_⟩
    have hpost : PUZZLE_POST.data
        = "\",\n      \"hint\": \"base64 of gzipped JSON; decode and gunzip to reveal secret_sum\",\n      \"submit_url\": \"/fake-submit\",\n      \"submit_payload_template\": \x7b \"email\":\"<email>\", \"secret\":\"<secret>\", ".data
          ++ (("\"url\":\"" ++ canonicalUrl .puzzle ++ "\"").data
          ++ ", \"answer\":\"<secret_sum>\" \x7d\n    \x7d\n    ".data) := by decide
    simp [puzzle_instr_str, str_data_append, hpost, List.append_assoc]
  · refine ⟨(PUZZLE_PRE ++ puzzle_gz_b64 gzipCompress).data
        ++ "\",\n      \"hint\": \"base64 of gzipped JSON; decode and gunzip to reveal secret_sum\",\n      ".data,
      ",\n      \"submit_payload_template\": \x7b \"email\":\"<email>\", \"secret\":\"<secret>\", \"url\":\"http://localhost:8001/puzzle-demo\", \"answer\":\"<secret_sum>\" \x7d\n    \x7d\n    ".data, ?_⟩
    have hpost : PUZZLE_POST.data
        = "\",\n      \"hint\": \"base64 of gzipped JSON; decode and gunzip to reveal secret_sum\",\n      ".data
          ++ (("\"submit_url\": \"/fake-submit\"").data
          ++ ",\n      \"submit_payload_template\": \x7b \"email\":\"<email>\", \"secret\":\"<secret>\", \"url\":\"http://localhost:8001/puzzle-demo\", \"answer\":\"<secret_sum>\" \x7d\n    \x7d\n    ".data) := by decide
    simp [puzzle_instr_str, str_data_append, hpost, List.append_assoc]

/-- C9: a well-formed submission whose `email` and `secret` are truthy but
whose `url` is a truthy non-string JSON value makes the suffix dispatch
raise an unhandled exception — a hard server error carrying no verdict. -/
theorem c9_nonstring_url_crashes (email secret url answer : JVal)
    (he : pyTruthy email = true) (hs : pyTruthy secret = true)
    (hu : pyTruthy url = true) (hns : ∀ str : String, url ≠ .jstr str) :
    fake_submit (.okJson email secret url answer) = .exn "AttributeError" ∧
    respCorrect (fake_submit (.okJson email secret url answer)) = none := by
  have h := fs_nonstring email secret url answer he hs hu hns
  exact ⟨h, by rw [h]; rfl⟩

/-- C9 witness: the numeric url 5. -/
theorem c9_witness :
    pyTruthy (.jstr "x@y.z") = true ∧ pyTruthy (.jstr "tok") = true ∧
    pyTruthy (.jnum 5) = true ∧
    (fake_submit (.okJson (.jstr "x@y.z") (.jstr "tok") (.jnum 5) .jnull)
        = .exn "AttributeError" ∧
      respCorrect (fake_submit (.okJson (.jstr "x@y.z") (.jstr "tok")
        (.jnum 5) .jnull)) = none) :=
  ⟨by decide, by decide, by decide,
    c9_nonstring_url_crashes _ _ _ _ (by decide) (by decide) (by decide) (by simp)⟩

/-- C10: for a validated submission whose url matches a known stage, the
`url` member of the verdict is the matched stage's successor URL whatever
the answer is, so two graded submissions for the same stage with different
answers receive the same next-stage URL. -/
theorem c10_url_independent_of_answer (email secret : JVal) (u : String) (st : Stage)
    (he : pyTruthy email = true) (hs : pyTruthy secret = true)
    (hst : stageOf u = some st) :
    (∀ answer : JVal, respUrl (fake_submit (.okJson email secret (.jstr u) answer))
      = some (fullNext (next_urlOf st))) ∧
    (∀ a1 a2 : JVal, respUrl (fake_submit (.okJson email secret (.jstr u) a1))
      = respUrl (fake_submit (.okJson email secret (.jstr u) a2))) := by
  have hmain : ∀ answer : JVal,
      respUrl (fake_submit (.okJson email secret (.jstr u) answer))
        = some (fullNext (next_urlOf st)) := by
    intro answer
    rw [fs_graded _ _ _ _ he hs (stageOf_ne_empty hst), gradeUrl_stage _ hst]
    cases hp : parseAnswer answer with
    | none => rw [gradeStage_parse_none st hp]; rfl
    | some x =>
      rw [gradeStage_parse_some st hp]
      by_cases h : |x - expectedOf st| < 1 / 1000000
      · rw [if_pos h]; rfl
      · rw [if_neg h]; rfl
  exact ⟨hmain, fun a1 a2 => (hmain a1).trans (hmain a2).symm⟩

/-- C10 witness: a correct, a wrong and a non-numeric pdf answer all surface
the image-stage URL. -/
theorem c10_witness :
    pyTruthy (.jstr "u@v.w") = true ∧ pyTruthy (.jstr "k") = true ∧
    stageOf "http://localhost:8001/pdf-demo" = some .pdf ∧
    respUrl (fake_submit (.okJson (.jstr "u@v.w") (.jstr "k")
        (.jstr "http://localhost:8001/pdf-demo") (.jstr "60")))
      = respUrl (fake_submit (.okJson (.jstr "u@v.w") (.jstr "k")
        (.jstr "http://localhost:8001/pdf-demo") (.jstr "oops"))) ∧
    respUrl (fake_submit (.okJson (.jstr "u@v.w") (.jstr "k")
        (.jstr "http://localhost:8001/pdf-demo") (.jstr "59")))
      = some (fullNext (next_urlOf .pdf)) :=
  ⟨by decide, by decide, by decide,
    (c10_url_independent_of_answer _ _ _ .pdf (by decide) (by decide) (by decide)).2
      (.jstr "60") (.jstr "oops"),
    (c10_url_independent_of_answer _ _ _ .pdf (by decide) (by decide) (by decide)).1
      (.jstr "59")⟩

end FakeTDS
